import Mathlib

/-!
Verification development for the avion-cargo perception-to-guidance loop.

The definitions below are shallow embeddings of the Python source:
  - src/domain/models.py        (CalibrationData, LandingTarget, Pose3D)
  - src/domain/tracking.py      (TrackingStatus, TrackingResult)
  - src/application/tracking_service.py (TrackingService.track_once)
  - src/interface/movements.py  (Movements ring buffer over a deque)
  - src/interface/interface_waiter.py (Interface.trigger_observers)
  - src/interface/controller.py (Controller.start, Controller.stop,
                                 the body of Controller._run_loop)
  - src/image_treatment.py      (guidance triple from a pose translation)

Python float values are modelled by the type FV: a finite rational, NaN or a
signed infinity; the numpy finiteness checks of the source become FV.isFinite.
Machine floats in data that the control loop merely carries and compares are
modelled as rationals; the real-valued guidance formulas are modelled over the
reals. Side effects of the loop (logging, sleeping, spawning and joining
threads, camera and vehicle calls, observer notification) are recorded as an
explicit list of Action values so that theorems can speak about which effects
an operation performs.
-/

namespace AvionCargo

/-- Model of a Python float value as far as the validation code inspects it:
a finite rational, NaN, or a signed infinity. np.isfinite is FV.isFinite. -/
inductive FV where
  | fin (q : ℚ)
  | nan
  | inf
  | ninf
deriving DecidableEq

/-- np.isfinite on one value. -/
def FV.isFinite : FV → Bool
  | .fin _ => true
  | _ => false

/-- A numpy array as far as the calibration validation inspects it: its
number of dimensions and its elements (ragged 2-d input also fails the
3 x 3 shape test below, as it does under numpy). -/
inductive NpArray where
  | dim1 (xs : List FV)
  | dim2 (xss : List (List FV))
deriving DecidableEq

/-- np.all (np.isfinite arr). -/
def NpArray.allFinite : NpArray → Bool
  | .dim1 xs => xs.all FV.isFinite
  | .dim2 xss => xss.all (fun row => row.all FV.isFinite)

/-- The camera matrix shape test of CalibrationData.__post_init__:
k.shape == (3, 3). -/
def camShapeOk : NpArray → Bool
  | .dim1 _ => false
  | .dim2 xss => xss.length == 3 && xss.all (fun row => row.length == 3)

/-- The distortion shape test of CalibrationData.__post_init__:
d.ndim == 2 and d.shape[0] == 1, or d.ndim == 1. -/
def distShapeOk : NpArray → Bool
  | .dim1 _ => true
  | .dim2 xss => xss.length == 1

/-- Domain errors of src/domain/errors.py. -/
inductive DomainError where
  | invalidCalibrationError (msg : String)
  | invalidMarkerLengthError (msg : String)
  | invalidPoseError (msg : String)
deriving DecidableEq

/-- Python exceptions relevant to the embedded code. AlreadyRunningError is
the exception the specification names for start() on a RUNNING loop; it is
listed here so that the specified behaviour is statable. -/
inductive PyError where
  | domain (e : DomainError)
  | valueError (msg : String)
  | alreadyRunningError
deriving DecidableEq

/-- Camera intrinsics plus distortion, src/domain/models.py. A value of this
type exists only as the result of mkCalibrationData, mirroring the frozen
dataclass whose __post_init__ validates on construction. -/
structure CalibrationData where
  camera_matrix : NpArray
  dist_coeffs : NpArray
deriving DecidableEq

/-- CalibrationData construction: the dataclass constructor together with
CalibrationData.__post_init__, in source order (shape of the matrix, shape of
the distortion array, finiteness of the matrix, finiteness of the distortion
array). The dtype-kind test of the source is vacuous here because FV values
are numeric by construction. -/
def mkCalibrationData (camera_matrix dist_coeffs : NpArray) :
    Except PyError CalibrationData :=
  if ¬ camShapeOk camera_matrix then
    .error (.domain (.invalidCalibrationError "camera_matrix must be shape (3,3)"))
  else if ¬ distShapeOk dist_coeffs then
    .error (.domain (.invalidCalibrationError "dist_coeffs must be shape (N,) or (1,N)"))
  else if ¬ camera_matrix.allFinite then
    .error (.domain (.invalidCalibrationError "camera_matrix contains non-finite values"))
  else if ¬ dist_coeffs.allFinite then
    .error (.domain (.invalidCalibrationError "dist_coeffs contains non-finite values"))
  else
    .ok ⟨camera_matrix, dist_coeffs⟩

/-- The target specification of src/domain/models.py (named LandingTarget
there; the sibling file domain/models.py used by the tracking service names
the same shape TargetedMarker). -/
structure LandingTarget where
  marker_id : Option Int
  marker_length_m : FV
deriving DecidableEq

/-- The test marker_id is not None and marker_id < 0 of
LandingTarget.__post_init__. -/
def markerIdNegative : Option Int → Bool
  | some n => decide (n < 0)
  | none => false

/-- The marker length acceptance test of LandingTarget.__post_init__:
the source raises when not np.isfinite(l) or l <= 0, so a length is
acceptable exactly when it is finite and positive. -/
def markerLengthOk : FV → Bool
  | .fin q => decide (0 < q)
  | _ => false

/-- LandingTarget construction: the dataclass constructor together with
LandingTarget.__post_init__, in source order (negative identifier first,
then the marker length). -/
def mkLandingTarget (marker_id : Option Int) (marker_length_m : FV) :
    Except PyError LandingTarget :=
  if markerIdNegative marker_id then
    .error (.valueError "marker_id must be >= 0 or None")
  else if ¬ markerLengthOk marker_length_m then
    .error (.domain (.invalidMarkerLengthError "marker_length_m must be > 0"))
  else
    .ok ⟨marker_id, marker_length_m⟩

/-- Movement history tracker of src/interface/movements.py: a
collections.deque with maxlen max_size, oldest element leftmost. -/
structure Movements (M : Type) where
  max_size : Nat
  movements : List M
deriving DecidableEq

/-- Movements.__init__ with the default max_size of 1000. -/
def Movements.init (M : Type) : Movements M := ⟨1000, []⟩

/-- Movements.add_movement: deque.append with a maxlen, which appends on the
right and discards from the left whatever exceeds max_size. -/
def Movements.add_movement {M : Type} (s : Movements M) (m : M) : Movements M :=
  if s.movements.length < s.max_size then
    ⟨s.max_size, s.movements ++ [m]⟩
  else
    ⟨s.max_size, (s.movements ++ [m]).drop (s.movements.length + 1 - s.max_size)⟩

/-- Movements.get_count. -/
def Movements.get_count {M : Type} (s : Movements M) : Nat :=
  s.movements.length

/-- Movements.get_movements with count=None. -/
def Movements.get_movements {M : Type} (s : Movements M) : List M :=
  s.movements

/-- Movements.get_latest_movement. -/
def Movements.get_latest_movement {M : Type} (s : Movements M) : Option M :=
  s.movements.getLast?

theorem Movements.length_add_movement {M : Type} (s : Movements M) (m : M) :
    (s.add_movement m).movements.length = min (s.movements.length + 1) s.max_size := by
  unfold Movements.add_movement
  by_cases h : s.movements.length < s.max_size
  · simp [h]
    omega
  · simp [h]
    omega

theorem Movements.max_size_add_movement {M : Type} (s : Movements M) (m : M) :
    (s.add_movement m).max_size = s.max_size := by
  unfold Movements.add_movement
  by_cases h : s.movements.length < s.max_size <;> simp [h]

theorem Movements.count_foldl_le {M : Type} (N : Nat) (ops : List M)
    (s : Movements M) (hmax : s.max_size = N) (hlen : s.movements.length ≤ N) :
    (ops.foldl Movements.add_movement s).movements.length ≤ N := by
  induction ops generalizing s with
  | nil => simpa using hlen
  | cons op rest ih =>
    simp only [List.foldl_cons]
    apply ih
    · rw [Movements.max_size_add_movement, hmax]
    · rw [Movements.length_add_movement, hmax]
      omega

/-- math.atan2 over the reals (C99 quadrant convention), as called by
ImageTreatment.get_corner_position. -/
noncomputable def atan2 (y x : ℝ) : ℝ :=
  if 0 < x then Real.arctan (y / x)
  else if x < 0 then
    (if 0 ≤ y then Real.arctan (y / x) + Real.pi else Real.arctan (y / x) - Real.pi)
  else
    (if 0 < y then Real.pi / 2 else if y < 0 then -(Real.pi / 2) else 0)

/-- The guidance triple stored per marker by
ImageTreatment.get_corner_position. -/
structure MarkerGuidance where
  angle_x : ℝ
  angle_y : ℝ
  distance : ℝ

/-- The guidance derivation of ImageTreatment.get_corner_position from a pose
translation vector t = (x, y, z): distance is the euclidean norm of t,
angle_x = atan2(t[0], t[2]), angle_y = atan2(t[1], t[2]). -/
noncomputable def guidanceOfTvec (x y z : ℝ) : MarkerGuidance :=
  ⟨atan2 x z, atan2 y z, Real.sqrt (x ^ 2 + y ^ 2 + z ^ 2)⟩

/-- 3D translation of src/domain/models.py, carried by tracking results.
The float components are modelled as rationals; the finiteness validation of
Pose3D.__post_init__ is not needed by the claims below. -/
structure Pose3D where
  x : ℚ
  y : ℚ
  z : ℚ
deriving DecidableEq

/-- src/domain/tracking.py TrackingStatus. -/
inductive TrackingStatus where
  | DETECTED
  | NOT_FOUND
deriving DecidableEq

/-- src/domain/tracking.py TrackingResult. -/
structure TrackingResult where
  status : TrackingStatus
  pose : Option Pose3D
  marker_id : Option Int
  confidence : Option ℚ
deriving DecidableEq

/-- TrackingResult.not_found. -/
def TrackingResult.not_found : TrackingResult :=
  ⟨.NOT_FOUND, none, none, none⟩

/-- TrackingResult.detected with the default confidence None. -/
def TrackingResult.detected (pose : Pose3D) (marker_id : Int) : TrackingResult :=
  ⟨.DETECTED, some pose, some marker_id, none⟩

/-- TrackingService.track_once after the frame capture: the detector output
is passed in as the list of (marker id, corners) detections, corner geometry
abstracted to an index, and the pose estimator as a function. The second
component counts how many times the pose estimator was invoked. The source
returns not_found on an empty detection list without calling the estimator,
and otherwise estimates a pose for detections[0] only. -/
def track_once (detections : List (Int × Nat)) (estimate_pose : Nat → Pose3D) :
    TrackingResult × Nat :=
  match detections with
  | [] => (TrackingResult.not_found, 0)
  | (mid, corners) :: _ => (TrackingResult.detected (estimate_pose corners) mid, 1)

/-- An observer as Interface.trigger_observers probes it: whether it has an
update attribute, and its update callback, which either returns or raises
(modelled by Except with the exception message). -/
structure Observer (D : Type) where
  hasUpdate : Bool
  update : D → Except String Unit

/-- What became of one observer during a broadcast. -/
inductive NotifyOutcome where
  | delivered
  | errorLogged (msg : String)
  | warnedNoUpdate
deriving DecidableEq

/-- The per-observer body of the loop in Interface.trigger_observers: call
update when present; an exception is caught and logged, producing
errorLogged rather than propagating. -/
def notifyObserver {D : Type} (o : Observer D) (data : D) : NotifyOutcome :=
  if o.hasUpdate then
    match o.update data with
    | .ok _ => .delivered
    | .error e => .errorLogged e
  else .warnedNoUpdate

/-- Interface.trigger_observers: iterate over a copy of the subscriber list,
notifying each observer in turn; the function is total, so no outcome of one
observer can abort delivery to the rest or reach the caller. -/
def trigger_observers {D : Type} (observers : List (Observer D)) (data : D) :
    List NotifyOutcome :=
  observers.map (fun o => notifyObserver o data)

/-- A detected marker as Controller._run_loop consumes it: the dictionary
built by ImageTreatment.get_corner_position restricted to the fields the
controller reads (id, distance, angle_x, angle_y; the tvec, rvec and corners
entries are never read by the controller). -/
structure Marker where
  id : Int
  distance : ℚ
  angle_x : ℚ
  angle_y : ℚ
deriving DecidableEq

/-- The movement dictionary appended by the loop on a successful vehicle
send: type landing_target, a timestamp, and the guidance data of the closest
marker. -/
structure MovementEvent where
  mtype : String
  timestamp : Nat
  marker_id : Int
  distance : ℚ
  angle_x : ℚ
  angle_y : ℚ
deriving DecidableEq

/-- min(markers, key=distance) starting from a first candidate: Python min
keeps the earliest element among ties, replacing only on strictly smaller
keys. -/
def closestMarker (m : Marker) (ms : List Marker) : Marker :=
  ms.foldl (fun best c => if c.distance < best.distance then c else best) m

/-- The mutable state of a Controller (src/interface/controller.py):
the run flag, the stored thread handle, the start time, the statistics
counters, the movement log, and the latest-results snapshot fields.
Frames and vehicle status values are abstracted to identifiers. The three
has fields record which collaborators were passed to __init__ (the source
tests each against None). -/
structure CtrlState where
  running : Bool
  thread : Option Nat
  start_time : Option Nat
  update_rate : Nat
  frame_count : Nat
  detection_count : Nat
  total_detections : Nat
  successful_poses : Nat
  movements : Movements MovementEvent
  latest_markers : List Marker
  latest_annotated_frame : Option Nat
  latest_vehicle_status : Option Nat
  hasCamera : Bool
  hasImageTreatment : Bool
  hasVehicle : Bool
deriving DecidableEq

/-- Controller.__init__ for a given set of collaborators. -/
def Controller.initState (hasCamera hasImageTreatment hasVehicle : Bool) :
    CtrlState :=
  ⟨false, none, none, 30, 0, 0, 0, 0, ⟨1000, []⟩, [], none, none,
   hasCamera, hasImageTreatment, hasVehicle⟩

/-- The observable side effects of controller methods and of one loop
iteration, in the order they are performed. -/
inductive Action where
  | warnAlreadyRunning
  | spawnThread
  | joinThread
  | warnCaptureFailed
  | sleepBackoff
  | releaseCamera
  | reconnectCamera
  | moveVehicle
  | getVehicleFeedback
  | triggerObservers
deriving DecidableEq

/-- Result of running a controller method or one loop iteration: the new
state, the exception it raised if any, and the side effects it performed. -/
structure CallResult where
  state : CtrlState
  raised : Option PyError
  actions : List Action
deriving DecidableEq

/-- Controller.start: when already running, log a warning and return;
otherwise set the run flag, record the start time, create the loop thread
and start it. The source contains no raise statement, so raised is none on
both paths. -/
def Controller.start (s : CtrlState) (now tid : Nat) : CallResult :=
  if s.running then
    ⟨s, none, [.warnAlreadyRunning]⟩
  else
    ⟨{ s with running := true, start_time := some now, thread := some tid },
     none, [.spawnThread]⟩

/-- Controller.stop: clear the run flag and, when a thread handle is stored,
join it with a 2 second timeout. The source contains no raise statement and
never clears the stored handle. -/
def Controller.stop (s : CtrlState) : CallResult :=
  ⟨{ s with running := false }, none,
   if s.thread.isSome then [.joinThread] else []⟩

/-- The per-tick inputs that one iteration of Controller._run_loop receives
from its collaborators: the camera frame (none on capture failure), the
image treatment result (annotated frame, marker list, detection and pose
tallies for this frame), the vehicle connection flag, the result of
move_vehicle were it called, the vehicle feedback, and the current time. -/
structure TickInput where
  frame : Option Nat
  annotated : Nat
  markers : List Marker
  total_detections : Nat
  successful_poses : Nat
  vehicleConnected : Bool
  moveVehicleSuccess : Bool
  vehicleFeedback : Nat
  now : Nat
deriving DecidableEq

/-- One pass of the while body of Controller._run_loop. With no camera the
body does nothing. On a missing frame it logs a warning, sleeps 0.1 s and
skips to the next tick. Otherwise it counts the frame; with image treatment
it stores the annotated frame and markers, accumulates the detection and
pose tallies, bumps detection_count on a nonempty marker list, calls
move_vehicle when a connected vehicle is present and markers exist
(appending a movement for the closest marker on success), refreshes the
vehicle status whenever a vehicle is present, and finally notifies the
observers; without image treatment it stores the raw frame and notifies the
observers. -/
def Controller.runIteration (s : CtrlState) (inp : TickInput) : CallResult :=
  if ¬ s.hasCamera then ⟨s, none, []⟩
  else
    match inp.frame with
    | none => ⟨s, none, [.warnCaptureFailed, .sleepBackoff]⟩
    | some f =>
      let s1 := { s with frame_count := s.frame_count + 1 }
      if s.hasImageTreatment then
        let s2 := { s1 with
          latest_annotated_frame := some inp.annotated,
          latest_markers := inp.markers,
          total_detections := s1.total_detections + inp.total_detections,
          successful_poses := s1.successful_poses + inp.successful_poses }
        let s3 :=
          if inp.markers.length > 0 then
            { s2 with detection_count := s2.detection_count + 1 }
          else s2
        let sendPhase :=
          if s.hasVehicle && inp.vehicleConnected then
            if inp.markers.length > 0 then
              if inp.moveVehicleSuccess then
                match inp.markers with
                | [] => (s3, ([] : List Action))
                | m :: rest =>
                  let c := closestMarker m rest
                  let ev : MovementEvent :=
                    ⟨"landing_target", inp.now, c.id, c.distance,
                     c.angle_x, c.angle_y⟩
                  ({ s3 with movements := s3.movements.add_movement ev },
                   [Action.moveVehicle])
              else (s3, [Action.moveVehicle])
            else (s3, ([] : List Action))
          else (s3, ([] : List Action))
        let s5 :=
          if s.hasVehicle then
            { sendPhase.1 with latest_vehicle_status := some inp.vehicleFeedback }
          else sendPhase.1
        ⟨s5, none,
         sendPhase.2 ++ (if s.hasVehicle then [Action.getVehicleFeedback] else [])
           ++ [Action.triggerObservers]⟩
      else
        ⟨{ s1 with latest_annotated_frame := some f }, none,
         [Action.triggerObservers]⟩

/-- One scheduling tick of Controller._run_loop: the while condition guards
the body, so a stopped controller does nothing. -/
def Controller.loopStep (s : CtrlState) (inp : TickInput) : CallResult :=
  if s.running then Controller.runIteration s inp else ⟨s, none, []⟩

/-- Several consecutive scheduling ticks, collecting the final state and the
concatenated side effects. -/
def Controller.runTicks (s : CtrlState) (inps : List TickInput) :
    CtrlState × List Action :=
  match inps with
  | [] => (s, [])
  | inp :: rest =>
    let r := Controller.loopStep s inp
    let k := Controller.runTicks r.state rest
    (k.1, r.actions ++ k.2)

/-- A controller built with a camera and image treatment but no vehicle,
immediately after a successful start: the state used as concrete scenario
input below. -/
def runningState : CtrlState :=
  (Controller.start (Controller.initState true true false) 0 1).state

/-- The tick observed by the loop when the camera delivers a frame on which
one marker is detected but its pose estimation fails: get_corner_position
reports total_detections = 1, successful_poses = 0 and an empty marker
list. -/
def poseFailTick : TickInput :=
  ⟨some 0, 0, [], 1, 0, false, false, 0, 0⟩

/-- The tick observed by the loop when camera.get_frame returns None. -/
def captureFailTick : TickInput :=
  ⟨none, 0, [], 0, 0, false, false, 0, 0⟩

/-- The tick observed by the loop on a frame with zero detections. -/
def zeroDetectionTick : TickInput :=
  ⟨some 7, 7, [], 0, 0, false, false, 0, 0⟩

/-- C4: for every pose translation (x, y, z) the guidance triple is
angle_x = atan2(x, z), angle_y = atan2(y, z), distance = sqrt of the sum of
squares; pose (0, 0, 2) yields angles 0 and distance 2, and pose (1, 0, 1)
yields angle_x = atan2(1, 1) and distance = sqrt 2. -/
theorem C4_guidance_derivation (x y z : ℝ) :
    guidanceOfTvec x y z =
      ⟨atan2 x z, atan2 y z, Real.sqrt (x ^ 2 + y ^ 2 + z ^ 2)⟩ ∧
    (guidanceOfTvec 0 0 2).angle_x = 0 ∧
    (guidanceOfTvec 0 0 2).angle_y = 0 ∧
    (guidanceOfTvec 0 0 2).distance = 2 ∧
    (guidanceOfTvec 1 0 1).angle_x = atan2 1 1 ∧
    (guidanceOfTvec 1 0 1).distance = Real.sqrt 2 := by
  refine ⟨rfl, ?_, ?_, ?_, rfl, ?_⟩
  · norm_num [guidanceOfTvec, atan2, Real.arctan_zero]
  · norm_num [guidanceOfTvec, atan2, Real.arctan_zero]
  · show Real.sqrt ((0 : ℝ) ^ 2 + 0 ^ 2 + 2 ^ 2) = 2
    rw [show (0 : ℝ) ^ 2 + 0 ^ 2 + 2 ^ 2 = 2 ^ 2 by norm_num]
    exact Real.sqrt_sq (by norm_num)
  · show Real.sqrt ((1 : ℝ) ^ 2 + 0 ^ 2 + 1 ^ 2) = Real.sqrt 2
    norm_num

/-- C5: the movement log never exceeds its capacity N, and appending to a
full log of N events evicts exactly the oldest event and keeps the rest in
insertion order. -/
theorem C5_movement_log_bounded (N : Nat) (ops : List MovementEvent)
    (hN : 0 < N) :
    (ops.foldl Movements.add_movement ⟨N, []⟩).get_count ≤ N ∧
    ∀ (s : Movements MovementEvent) (m : MovementEvent),
      s.max_size = N → s.movements.length = N →
      (s.add_movement m).movements = s.movements.drop 1 ++ [m] := by
  constructor
  · exact Movements.count_foldl_le N ops ⟨N, []⟩ rfl (by simp)
  · intro s m hmax hlen
    unfold Movements.add_movement
    have h1 : ¬ s.movements.length < s.max_size := by omega
    simp only [h1, if_false]
    rw [hlen, hmax]
    have h2 : N + 1 - N = 1 := by omega
    rw [h2]
    cases hs : s.movements with
    | nil => rw [hs] at hlen; simp at hlen; omega
    | cons a l => simp

/-- C5 witness: with capacity 2, three insertions leave the count at 2, and
inserting a third event into a full log of two evicts exactly the first. -/
theorem C5_movement_log_bounded_witness :
    ((List.replicate 3 (⟨"landing_target", 0, 0, 0, 0, 0⟩ : MovementEvent)).foldl
        Movements.add_movement ⟨2, []⟩).get_count ≤ 2 ∧
    ((⟨2, [⟨"landing_target", 1, 1, 1, 0, 0⟩, ⟨"landing_target", 2, 2, 2, 0, 0⟩]⟩ :
        Movements MovementEvent).add_movement
          ⟨"landing_target", 3, 3, 3, 0, 0⟩).movements =
      [⟨"landing_target", 2, 2, 2, 0, 0⟩, ⟨"landing_target", 3, 3, 3, 0, 0⟩] := by
  constructor
  · exact (C5_movement_log_bounded 2 _ (by decide)).1
  · have h := (C5_movement_log_bounded 2 [] (by decide)).2
      ⟨2, [⟨"landing_target", 1, 1, 1, 0, 0⟩, ⟨"landing_target", 2, 2, 2, 0, 0⟩]⟩
      ⟨"landing_target", 3, 3, 3, 0, 0⟩ rfl rfl
    simpa using h

/-- C6: during a broadcast, an observer whose update callback raises is
logged in place while every other subscribed observer is still notified with
the same data, and nothing propagates to the caller (the broadcast is a
total function of the subscriber list). -/
theorem C6_observer_isolation {D : Type} (pre post : List (Observer D))
    (bad : Observer D) (data : D) (e : String)
    (hhas : bad.hasUpdate = true) (hbad : bad.update data = .error e) :
    trigger_observers (pre ++ bad :: post) data =
      trigger_observers pre data ++
        NotifyOutcome.errorLogged e :: trigger_observers post data ∧
    (trigger_observers (pre ++ bad :: post) data).length =
      pre.length + 1 + post.length := by
  constructor
  · simp [trigger_observers, notifyObserver, hhas, hbad]
  · simp only [trigger_observers, List.length_map, List.length_append,
      List.length_cons]
    omega

/-- An observer whose callback succeeds, used as concrete scenario input. -/
def goodObs : Observer Nat := ⟨true, fun _ => .ok ()⟩

/-- An observer whose callback raises, used as concrete scenario input. -/
def badObs : Observer Nat := ⟨true, fun _ => .error "boom"⟩

/-- C6 witness: with a failing observer between two healthy ones, both
healthy observers are delivered and the failure is logged in place. -/
theorem C6_observer_isolation_witness :
    trigger_observers ([goodObs] ++ badObs :: [goodObs]) 0 =
      trigger_observers [goodObs] 0 ++
        NotifyOutcome.errorLogged "boom" :: trigger_observers [goodObs] 0 ∧
    (trigger_observers ([goodObs] ++ badObs :: [goodObs]) 0).length =
      [goodObs].length + 1 + [goodObs].length :=
  C6_observer_isolation [goodObs] [goodObs] badObs 0 "boom" rfl rfl

/-- C8: constructing CalibrationData with a camera matrix that is not 3 x 3,
or with any non-finite element in the matrix or the distortion coefficients,
fails with InvalidCalibrationError; a successful construction satisfies the
shape and finiteness invariants. -/
theorem C8_calibration_validation (k d : NpArray) :
    (camShapeOk k = false →
      ∃ msg, mkCalibrationData k d =
        .error (.domain (.invalidCalibrationError msg))) ∧
    (k.allFinite = false ∨ d.allFinite = false →
      ∃ msg, mkCalibrationData k d =
        .error (.domain (.invalidCalibrationError msg))) ∧
    (∀ c, mkCalibrationData k d = .ok c →
      camShapeOk c.camera_matrix = true ∧
      c.camera_matrix.allFinite = true ∧
      distShapeOk c.dist_coeffs = true ∧
      c.dist_coeffs.allFinite = true) := by
  refine ⟨?_, ?_, ?_⟩
  · intro h
    exact ⟨"camera_matrix must be shape (3,3)", by simp [mkCalibrationData, h]⟩
  · intro h
    unfold mkCalibrationData
    by_cases h1 : camShapeOk k = true
    · by_cases h2 : distShapeOk d = true
      · by_cases h3 : k.allFinite = true
        · by_cases h4 : d.allFinite = true
          · rcases h with h | h
            · rw [h3] at h; exact absurd h (by simp)
            · rw [h4] at h; exact absurd h (by simp)
          · exact ⟨"dist_coeffs contains non-finite values", by simp [h1, h2, h3, h4]⟩
        · exact ⟨"camera_matrix contains non-finite values", by simp [h1, h2, h3]⟩
      · exact ⟨"dist_coeffs must be shape (N,) or (1,N)", by simp [h1, h2]⟩
    · exact ⟨"camera_matrix must be shape (3,3)", by simp [h1]⟩
  · intro c hc
    unfold mkCalibrationData at hc
    by_cases h1 : camShapeOk k = true
    · by_cases h2 : distShapeOk d = true
      · by_cases h3 : k.allFinite = true
        · by_cases h4 : d.allFinite = true
          · simp only [h1, h2, h3, h4, not_true, if_false] at hc
            obtain rfl : (⟨k, d⟩ : CalibrationData) = c := by
              injection hc
            exact ⟨h1, h3, h2, h4⟩
          · simp [h1, h2, h3, h4] at hc
        · simp [h1, h2, h3] at hc
      · simp [h1, h2] at hc
    · simp [h1] at hc

/-- C8 witness: a 2 x 2 matrix is rejected, a NaN entry is rejected, and a
valid 3 x 3 identity with finite distortion coefficients is accepted and
satisfies the invariants. -/
theorem C8_calibration_validation_witness :
    (∃ msg, mkCalibrationData (NpArray.dim2 [[FV.fin 1, FV.fin 0],
        [FV.fin 0, FV.fin 1]]) (NpArray.dim1 [FV.fin 0]) =
      .error (.domain (.invalidCalibrationError msg))) ∧
    (∃ msg, mkCalibrationData (NpArray.dim2 [[FV.fin 1, FV.fin 0, FV.fin 0],
        [FV.fin 0, FV.fin 1, FV.fin 0], [FV.fin 0, FV.fin 0, FV.nan]])
        (NpArray.dim1 [FV.fin 0]) =
      .error (.domain (.invalidCalibrationError msg))) ∧
    ∀ c, mkCalibrationData (NpArray.dim2 [[FV.fin 1, FV.fin 0, FV.fin 0],
        [FV.fin 0, FV.fin 1, FV.fin 0], [FV.fin 0, FV.fin 0, FV.fin 1]])
        (NpArray.dim1 [FV.fin 0]) = .ok c →
      camShapeOk c.camera_matrix = true ∧
      c.camera_matrix.allFinite = true ∧
      distShapeOk c.dist_coeffs = true ∧
      c.dist_coeffs.allFinite = true :=
  ⟨(C8_calibration_validation _ _).1 (by decide),
   (C8_calibration_validation _ _).2.1 (Or.inl (by decide)),
   (C8_calibration_validation _ _).2.2⟩

/-- C10: constructing a LandingTarget with a negative marker identifier
fails with ValueError; identifier None and every identifier at least 0 are
accepted when the marker length is valid. -/
theorem C10_landing_target_id_validation (n : Int) (len : FV) :
    (n < 0 →
      ∃ msg, mkLandingTarget (some n) len = .error (.valueError msg)) ∧
    (markerLengthOk len = true →
      mkLandingTarget none len = .ok ⟨none, len⟩) ∧
    (0 ≤ n → markerLengthOk len = true →
      mkLandingTarget (some n) len = .ok ⟨some n, len⟩) := by
  refine ⟨?_, ?_, ?_⟩
  · intro h
    exact ⟨"marker_id must be >= 0 or None", by simp [mkLandingTarget, markerIdNegative, h]⟩
  · intro h
    simp [mkLandingTarget, markerIdNegative, h]
  · intro hn h
    have hneg : ¬ n < 0 := by omega
    simp [mkLandingTarget, markerIdNegative, hneg, h]

/-- C10 witness: marker identifier -1 is rejected with ValueError while
None and 0 are accepted with a valid length. -/
theorem C10_landing_target_id_validation_witness :
    (∃ msg, mkLandingTarget (some (-1)) (FV.fin 1) =
      .error (.valueError msg)) ∧
    mkLandingTarget none (FV.fin 1) = .ok ⟨none, FV.fin 1⟩ ∧
    mkLandingTarget (some 0) (FV.fin 1) = .ok ⟨some 0, FV.fin 1⟩ :=
  ⟨(C10_landing_target_id_validation (-1) (FV.fin 1)).1 (by decide),
   (C10_landing_target_id_validation 0 (FV.fin 1)).2.1 (by decide),
   (C10_landing_target_id_validation 0 (FV.fin 1)).2.2 (by decide) (by decide)⟩

/-- C1 counterexample: on a RUNNING controller, start() raises nothing at
all (the claim expects AlreadyRunningError, an exception that exists nowhere
in the repository); the state is returned untouched. -/
theorem C1_start_counterexample :
    runningState.running = true ∧
    (Controller.start runningState 5 2).raised = none ∧
    (Controller.start runningState 5 2).state = runningState := by
  refine ⟨rfl, rfl, rfl⟩

/-- C1 amended: calling start() on a RUNNING controller does not raise; it
logs a warning and returns with the state untouched (still RUNNING, same
thread, no counters changed); on a STOPPED controller it spawns the loop
thread and moves the state to RUNNING. -/
theorem C1_start_amended (s : CtrlState) (now tid : Nat) :
    (s.running = true →
      Controller.start s now tid = ⟨s, none, [Action.warnAlreadyRunning]⟩) ∧
    (s.running = false →
      Controller.start s now tid =
        ⟨{ s with running := true, start_time := some now, thread := some tid },
         none, [Action.spawnThread]⟩) := by
  constructor
  · intro h
    simp [Controller.start, h]
  · intro h
    simp [Controller.start, h]

/-- C1 amended witness: start on the concrete running controller warns and
leaves it alone; start on a fresh controller spawns and runs. -/
theorem C1_start_amended_witness :
    Controller.start runningState 5 2 =
      ⟨runningState, none, [Action.warnAlreadyRunning]⟩ ∧
    Controller.start (Controller.initState true true false) 5 2 =
      ⟨{ Controller.initState true true false with
          running := true, start_time := some 5, thread := some 2 },
       none, [Action.spawnThread]⟩ :=
  ⟨(C1_start_amended runningState 5 2).1 rfl,
   (C1_start_amended (Controller.initState true true false) 5 2).2 rfl⟩

/-- C2 counterexample: on a capture failure the loop iteration only warns
and sleeps; it performs no camera release and no reconnect attempt, contrary
to the claimed release-and-reconnect recovery. -/
theorem C2_capture_counterexample :
    (Controller.runIteration runningState captureFailTick).actions =
      [Action.warnCaptureFailed, Action.sleepBackoff] ∧
    Action.releaseCamera ∉
      (Controller.runIteration runningState captureFailTick).actions ∧
    Action.reconnectCamera ∉
      (Controller.runIteration runningState captureFailTick).actions := by
  refine ⟨rfl, by decide, by decide⟩

/-- C2 amended: when frame acquisition returns nothing the loop does not
crash: it logs a warning, pauses 0.1 s and skips the iteration with the
state unchanged, retrying at the next tick, unbounded, until stop() is
called; it never releases or reconnects the camera (Camera.reconnect exists
in the source but is never invoked by the loop). -/
theorem C2_capture_failure_amended (s : CtrlState) (inp : TickInput)
    (hc : s.hasCamera = true) (hr : s.running = true) (hf : inp.frame = none) :
    Controller.runIteration s inp =
      ⟨s, none, [Action.warnCaptureFailed, Action.sleepBackoff]⟩ ∧
    ∀ n : Nat,
      (Controller.runTicks s (List.replicate n inp)).1 = s ∧
      (Controller.runTicks s (List.replicate n inp)).2.count
        Action.reconnectCamera = 0 ∧
      (Controller.runTicks s (List.replicate n inp)).2.count
        Action.releaseCamera = 0 := by
  have hstep : Controller.runIteration s inp =
      ⟨s, none, [Action.warnCaptureFailed, Action.sleepBackoff]⟩ := by
    simp [Controller.runIteration, hc, hf]
  refine ⟨hstep, ?_⟩
  intro n
  induction n with
  | zero => simp [Controller.runTicks]
  | succ k ih =>
    simp only [List.replicate_succ, Controller.runTicks, Controller.loopStep,
      hr, if_true, hstep]
    refine ⟨ih.1, ?_, ?_⟩
    · simp [List.count_cons, ih.2.1]
    · simp [List.count_cons, ih.2.2]

/-- C2 amended witness: three consecutive capture failures on the concrete
running controller leave it unchanged and perform no reconnect. -/
theorem C2_capture_failure_amended_witness :
    Controller.runIteration runningState captureFailTick =
      ⟨runningState, none, [Action.warnCaptureFailed, Action.sleepBackoff]⟩ ∧
    (Controller.runTicks runningState
      (List.replicate 3 captureFailTick)).1 = runningState ∧
    (Controller.runTicks runningState
      (List.replicate 3 captureFailTick)).2.count Action.reconnectCamera = 0 :=
  ⟨(C2_capture_failure_amended runningState captureFailTick rfl rfl rfl).1,
   ((C2_capture_failure_amended runningState captureFailTick rfl rfl rfl).2 3).1,
   ((C2_capture_failure_amended runningState captureFailTick rfl rfl rfl).2 3).2.1⟩

/-- C3 counterexample: running 11 consecutive pose-estimation-failure ticks
triggers zero camera reconnects, not the one forced reconnect the claim
requires; no consecutive-failure counter exists in the controller state. -/
theorem C3_pose_failure_counterexample :
    (Controller.runTicks runningState
      (List.replicate 11 poseFailTick)).2.count Action.reconnectCamera = 0 ∧
    ¬ (Controller.runTicks runningState
      (List.replicate 11 poseFailTick)).2.count Action.reconnectCamera = 1 := by
  constructor
  · decide
  · decide

/-- C3 amended: the loop maintains no consecutive pose-estimation-failure
counter and has no reconnect threshold: any number of consecutive
pose-estimation failures triggers no camera reconnect and no release; the
loop only accumulates the cumulative total_detections tally while
successful_poses and the movement log stay unchanged. -/
theorem C3_no_failure_counter_amended (s : CtrlState) (n : Nat)
    (hr : s.running = true) (hc : s.hasCamera = true)
    (hi : s.hasImageTreatment = true) :
    (Controller.runTicks s (List.replicate n poseFailTick)).1.successful_poses
      = s.successful_poses ∧
    (Controller.runTicks s (List.replicate n poseFailTick)).1.total_detections
      = s.total_detections + n ∧
    (Controller.runTicks s (List.replicate n poseFailTick)).1.frame_count
      = s.frame_count + n ∧
    (Controller.runTicks s (List.replicate n poseFailTick)).1.movements
      = s.movements ∧
    (Controller.runTicks s (List.replicate n poseFailTick)).2.count
      Action.reconnectCamera = 0 ∧
    (Controller.runTicks s (List.replicate n poseFailTick)).2.count
      Action.releaseCamera = 0 := by
  induction n generalizing s with
  | zero => simp [Controller.runTicks]
  | succ k ih =>
    have hstep : ∃ acts, Controller.runIteration s poseFailTick =
        ⟨{ s with
            frame_count := s.frame_count + 1,
            total_detections := s.total_detections + 1,
            latest_markers := [],
            latest_annotated_frame := some 0,
            latest_vehicle_status :=
              if s.hasVehicle then some 0 else s.latest_vehicle_status },
         none, acts⟩ ∧
        acts.count Action.reconnectCamera = 0 ∧
        acts.count Action.releaseCamera = 0 := by
      cases hv : s.hasVehicle with
      | false =>
        refine ⟨[Action.triggerObservers], ?_, by decide, by decide⟩
        simp [Controller.runIteration, hc, hi, hv, poseFailTick]
      | true =>
        refine ⟨[Action.getVehicleFeedback, Action.triggerObservers], ?_,
          by decide, by decide⟩
        simp [Controller.runIteration, hc, hi, hv, poseFailTick]
    obtain ⟨acts, hstep, hcnt1, hcnt2⟩ := hstep
    have ihs := ih
      { s with
        frame_count := s.frame_count + 1,
        total_detections := s.total_detections + 1,
        latest_markers := [],
        latest_annotated_frame := some 0,
        latest_vehicle_status :=
          if s.hasVehicle then some 0 else s.latest_vehicle_status }
      hr hc hi
    simp only [List.replicate_succ, Controller.runTicks, Controller.loopStep,
      hr, if_true, hstep] at *
    refine ⟨ihs.1, ?_, ?_, ihs.2.2.2.1, ?_, ?_⟩
    · rw [ihs.2.1]; omega
    · rw [ihs.2.2.1]; omega
    · simp [List.count_append, hcnt1, ihs.2.2.2.2.1]
    · simp [List.count_append, hcnt2, ihs.2.2.2.2.2]

/-- C3 amended witness: 11 consecutive pose-estimation-failure ticks on the
concrete running controller: no reconnect, totals advance by 11, no
successful pose, movement log untouched. -/
theorem C3_no_failure_counter_amended_witness :
    (Controller.runTicks runningState
      (List.replicate 11 poseFailTick)).1.successful_poses = 0 ∧
    (Controller.runTicks runningState
      (List.replicate 11 poseFailTick)).1.total_detections = 11 ∧
    (Controller.runTicks runningState
      (List.replicate 11 poseFailTick)).2.count Action.reconnectCamera = 0 := by
  have h := C3_no_failure_counter_amended runningState 11 rfl rfl rfl
  exact ⟨h.1, h.2.1, h.2.2.2.2.1⟩

/-- C7: with zero detections the tracking service returns NOT_FOUND without
invoking the pose estimator, and the loop iteration appends no movement,
attempts no vehicle send, still counts the frame and detection totals, and
still broadcasts the snapshot to the observers. -/
theorem C7_zero_detections (est : Nat → Pose3D) (s : CtrlState)
    (inp : TickInput) (f : Nat) (hc : s.hasCamera = true)
    (hi : s.hasImageTreatment = true) (hf : inp.frame = some f)
    (hm : inp.markers = []) :
    track_once [] est = (TrackingResult.not_found, 0) ∧
    (Controller.runIteration s inp).raised = none ∧
    (Controller.runIteration s inp).state.movements = s.movements ∧
    Action.moveVehicle ∉ (Controller.runIteration s inp).actions ∧
    Action.triggerObservers ∈ (Controller.runIteration s inp).actions ∧
    (Controller.runIteration s inp).state.frame_count = s.frame_count + 1 ∧
    (Controller.runIteration s inp).state.total_detections
      = s.total_detections + inp.total_detections ∧
    (Controller.runIteration s inp).state.detection_count
      = s.detection_count := by
  have hiter : ∃ acts, Controller.runIteration s inp =
      ⟨{ s with
          frame_count := s.frame_count + 1,
          total_detections := s.total_detections + inp.total_detections,
          successful_poses := s.successful_poses + inp.successful_poses,
          latest_markers := [],
          latest_annotated_frame := some inp.annotated,
          latest_vehicle_status :=
            if s.hasVehicle then some inp.vehicleFeedback
            else s.latest_vehicle_status },
       none, acts⟩ ∧
      Action.moveVehicle ∉ acts ∧ Action.triggerObservers ∈ acts := by
    cases hv : s.hasVehicle with
    | false =>
      refine ⟨[Action.triggerObservers], ?_, by decide, by decide⟩
      simp [Controller.runIteration, hc, hi, hf, hm, hv]
    | true =>
      refine ⟨[Action.getVehicleFeedback, Action.triggerObservers], ?_,
        by decide, by decide⟩
      cases hvc : inp.vehicleConnected with
      | false => simp [Controller.runIteration, hc, hi, hf, hm, hv, hvc]
      | true => simp [Controller.runIteration, hc, hi, hf, hm, hv, hvc]
  obtain ⟨acts, hiter, hmv, htr⟩ := hiter
  rw [hiter]
  exact ⟨rfl, rfl, rfl, hmv, htr, rfl, rfl, rfl⟩

/-- C7 witness: the concrete zero-detection tick on the concrete running
controller. -/
theorem C7_zero_detections_witness :
    track_once [] (fun _ => ⟨0, 0, 0⟩) = (TrackingResult.not_found, 0) ∧
    (Controller.runIteration runningState zeroDetectionTick).state.movements
      = runningState.movements ∧
    Action.moveVehicle ∉
      (Controller.runIteration runningState zeroDetectionTick).actions ∧
    Action.triggerObservers ∈
      (Controller.runIteration runningState zeroDetectionTick).actions := by
  have h := C7_zero_detections (fun _ => ⟨0, 0, 0⟩) runningState
    zeroDetectionTick 7 rfl rfl rfl rfl
  exact ⟨h.1, h.2.2.1, h.2.2.2.1, h.2.2.2.2.1⟩

/-- The concrete already-stopped controller that still stores the finished
loop thread handle from its previous run. -/
def stoppedWithThread : CtrlState := (Controller.stop runningState).state

/-- C9 counterexample: on an already-STOPPED controller that retains a
thread handle from a previous run, stop() does call join on that handle,
contrary to the claimed no thread is joined. -/
theorem C9_stop_counterexample :
    stoppedWithThread.running = false ∧
    (Controller.stop stoppedWithThread).actions = [Action.joinThread] := by
  refine ⟨rfl, rfl⟩

/-- C9 amended: calling stop() on an already-STOPPED controller raises no
error and changes no state (running stays false, statistics and the
movement log are untouched), and stop() is idempotent; however, when a
thread handle from a previous run is still stored, join is invoked on it
again (a no-op on a finished thread), and only a controller that never
started performs no join. -/
theorem C9_stop_amended (s : CtrlState) (h : s.running = false) :
    (Controller.stop s).state = s ∧
    (Controller.stop s).raised = none ∧
    (Controller.stop s).actions =
      (if s.thread.isSome then [Action.joinThread] else []) ∧
    (Controller.stop (Controller.stop s).state).state
      = (Controller.stop s).state := by
  have key : ∀ t : CtrlState, t.running = false →
      (Controller.stop t).state = t := by
    intro t ht
    cases t with
    | mk r th st ur fc dc td sp mv lm laf lvs hcam hit hveh =>
      simp only [Controller.stop]
      simp only at ht
      rw [ht]
  refine ⟨key s h, rfl, rfl, ?_⟩
  exact key (Controller.stop s).state (by simp [Controller.stop])

/-- C9 amended witness: the concrete stopped-after-run controller. -/
theorem C9_stop_amended_witness :
    (Controller.stop stoppedWithThread).state = stoppedWithThread ∧
    (Controller.stop stoppedWithThread).raised = none ∧
    (Controller.stop stoppedWithThread).actions = [Action.joinThread] := by
  have h := C9_stop_amended stoppedWithThread rfl
  refine ⟨h.1, h.2.1, ?_⟩
  rw [h.2.2.1]
  rfl

end AvionCargo
